import Mathlib

/-!
Verification of the Expenses-tracking web app client against its design
specification.  The client code (Next.js/axios) is shallowly embedded:
JavaScript numbers are rationals with `none` standing for `NaN`, the
axios interceptor pair and the page-level 401 handlers become explicit
state-passing functions over a client-state record, and the financial
aggregation of the two dashboard variants is translated verbatim from
the source.  Sources referenced below:

* `frontend/app/api.ts` (request/response interceptors, token refresh);
* `frontend/app/contexts/AuthContext.tsx` (login/logout/session cache);
* `frontend/app/page.tsx` (legacy sign-based dashboard, lines 41-93);
* the authenticated dashboard (second document of
  `frontend/app/login/page.tsx`, lines 219-306 and 463-465).
-/

/-- JavaScript numbers as the client uses them: `none` models `NaN`,
`some q` a finite value (decimal amounts are embedded in `ℚ`). -/
abbrev JsNum := Option ℚ

/-- JavaScript `x || d` on a number: `NaN` and `0` are falsy, so both
yield the default `d`. -/
def jsOr (x : JsNum) (d : ℚ) : ℚ :=
  match x with
  | none => d
  | some q => if q = 0 then d else q

/-- JavaScript addition on numbers: `NaN` propagates. -/
def jsAdd (x y : JsNum) : JsNum :=
  match x, y with
  | some a, some b => some (a + b)
  | _, _ => none

/-- JavaScript comparison `x > q`: false when `x` is `NaN`. -/
def jsGt (x : JsNum) (q : ℚ) : Bool :=
  match x with
  | none => false
  | some a => decide (q < a)

/-- JavaScript comparison `x <= q`: false when `x` is `NaN`. -/
def jsLe (x : JsNum) (q : ℚ) : Bool :=
  match x with
  | none => false
  | some a => decide (a ≤ q)

/-- JavaScript unary minus: `NaN` propagates. -/
def jsNeg (x : JsNum) : JsNum := x.map (fun a => -a)

/-- Transaction kind, the `type` field of the records served by the API. -/
inductive TType where
  | income
  | expense
deriving DecidableEq, Repr

/-- A transaction record as the client sees it.  `amount` is the value of
`Number(t.amount)` (so `none` when the raw field does not parse); `ty`
is the optional `type` field (`none` on legacy records). -/
structure Txn where
  id : String
  text : String
  amount : JsNum
  ty : Option TType
deriving DecidableEq, Repr

namespace Dashboard

/-- Effective type of a record in the authenticated dashboard:
`t.type ?? (Number(t.amount) > 0 ? 'income' : 'expense')`
(login/page.tsx lines 299, 302 and 464). -/
def effType (t : Txn) : TType :=
  t.ty.getD (if jsGt t.amount 0 then TType.income else TType.expense)

/-- One step of `reduce((acc, t) => acc + Number(t.amount) || 0, 0)`.
JavaScript precedence parses the body as `(acc + Number(t.amount)) || 0`. -/
def addOr0 (acc : ℚ) (t : Txn) : ℚ := jsOr (jsAdd (some acc) t.amount) 0

/-- `income` of the authenticated dashboard (login/page.tsx lines 298-300). -/
def income (ts : List Txn) : ℚ :=
  (ts.filter (fun t => effType t = TType.income)).foldl addOr0 0

/-- `expense` of the authenticated dashboard (login/page.tsx lines 301-303). -/
def expense (ts : List Txn) : ℚ :=
  (ts.filter (fun t => effType t = TType.expense)).foldl addOr0 0

/-- `balance = income - expense` (login/page.tsx line 304). -/
def balance (ts : List Txn) : ℚ := income ts - expense ts

/-- The Expenses stat renders `(-expense).toFixed(2)` (line 396). -/
def shownExpense (ts : List Txn) : ℚ := - expense ts

/-- `displayAmount = isIncome ? Number(t.amount) : -Number(t.amount)`
(login/page.tsx line 465). -/
def displayAmount (t : Txn) : JsNum :=
  if effType t = TType.income then t.amount else jsNeg t.amount

end Dashboard

namespace Legacy

/-- `transactions.map((t) => Number(t.amount) || 0)` (page.tsx line 85). -/
def amountArray (ts : List Txn) : List ℚ := ts.map (fun t => jsOr t.amount 0)

/-- The trailing `|| 0` the legacy dashboard applies to each aggregate:
on an ordinary (non-`NaN`) number it only maps `0` to `0`. -/
def qOr0 (x : ℚ) : ℚ := if x = 0 then 0 else x

/-- `balance = amountArray.reduce((acc, item) => acc + item, 0) || 0`
(page.tsx line 87). -/
def balance (ts : List Txn) : ℚ := qOr0 ((amountArray ts).foldl (· + ·) 0)

/-- `income = amountArray.filter((a) => a > 0).reduce(..., 0) || 0`
(page.tsx line 89). -/
def income (ts : List Txn) : ℚ :=
  qOr0 (((amountArray ts).filter (fun a => 0 < a)).foldl (· + ·) 0)

/-- `expense = amountArray.filter((a) => a < 0).reduce(..., 0) || 0`
(page.tsx line 91). -/
def expense (ts : List Txn) : ℚ :=
  qOr0 (((amountArray ts).filter (fun a => a < 0)).foldl (· + ·) 0)

end Legacy

/-- `income > 0 ? Math.min((Math.abs(expense) / income) * 100, 100) : 0`,
identical in both dashboards (page.tsx line 93, login/page.tsx line 306). -/
def ratioOf (income expense : ℚ) : ℚ :=
  if 0 < income then min (|expense| / income * 100) 100 else 0

/-- The ratio as the specification words it: expense/income as a
percentage clamped to the interval `[0, 100]`, and `0` when income is
`0`.  Stated from the spec for comparison with `ratioOf`. -/
def ratioSpec (income expense : ℚ) : ℚ :=
  if income = 0 then 0 else max 0 (min (expense / income * 100) 100)

/-- The `amount` form state of the add-transaction modal: the React state
is `number | ""`, and the number may be `NaN`. -/
inductive FormAmount where
  | empty
  | nan
  | num (q : ℚ)
deriving DecidableEq, Repr

/-- `Number(amount)` on the form state (`Number("") = 0`). -/
def FormAmount.toNum : FormAmount → JsNum
  | .empty => some 0
  | .nan => none
  | .num q => some q

namespace Dashboard

/-- Whether `addTransaction` of the authenticated dashboard reaches the
HTTP POST (login/page.tsx lines 219-240): it returns early when
`!text || amount === "" || Number.isNaN(Number(amount))`, and again when
`numAmount <= 0`. -/
def addTransactionSends (text : String) (amount : FormAmount) : Bool :=
  if text = "" ∨ amount = FormAmount.empty ∨ amount = FormAmount.nan then false
  else if jsLe amount.toNum 0 then false
  else true

end Dashboard

namespace Legacy

/-- Whether `addTransaction` of the legacy dashboard reaches the HTTP
POST (page.tsx lines 41-52): only
`!text || amount === "" || Number.isNaN(Number(amount))` is checked. -/
def addTransactionSends (text : String) (amount : FormAmount) : Bool :=
  if text = "" ∨ amount = FormAmount.empty ∨ amount = FormAmount.nan then false
  else true

end Legacy

/-- `deleteTransaction` updates the list only when the DELETE call
succeeded: `setTransactions(transactions.filter(t => t.id !== id))`
(login/page.tsx lines 278-293, page.tsx lines 72-81); on failure the
list is left unchanged. -/
def deleteTransaction (success : Bool) (idv : String) (ts : List Txn) : List Txn :=
  if success then ts.filter (fun t => t.id ≠ idv) else ts

/-- The backend, the fixed collaborator contract of spec section 6:
`protectedStatus tok` is the HTTP status a protected endpoint returns
for bearer token `tok`, and `refreshAccess r` is the new access token
issued by `POST /api/auth/token/refresh/` for refresh token `r` (`none`
when that endpoint answers 401). -/
structure Server where
  protectedStatus : Option String → Nat
  refreshAccess : String → Option String

/-- The origin-scoped localStorage session cache: `access_token`,
`refresh_token` and the serialized `user`. -/
structure Store where
  access : Option String
  refresh : Option String
  storedUser : Option String
deriving DecidableEq, Repr

/-- Axios resolves a response exactly when its status is in the 2xx
range. -/
def isSuccess (s : Nat) : Bool := decide (200 ≤ s) && decide (s < 300)

/-- Observable outcome of one pass through the axios instance: whether
the promise resolved, the status the caller sees, how many calls hit the
refresh endpoint, and whether the interceptor itself navigated to
`/login` (`window.location.href`). -/
structure ApiOut where
  ok : Bool
  status : Nat
  refreshCalls : Nat
  redirected : Bool
deriving DecidableEq, Repr

/-- The response-error handler installed by `api.interceptors.response`
(api.ts lines 94-126), applied to a response that failed with `status`
while the request carried the `_retry` marker `marker`.  On
`401 && !marker` it reads the cached refresh token; if present it calls
the refresh endpoint, stores the new access token and re-issues the
original request (whose `_retry` marker is now set, so a second 401 is
rejected as-is); if the refresh call fails it clears the whole cache and
redirects to `/login`; with no cached refresh token it falls through and
rejects the original error. -/
def onRejected (srv : Server) (st : Store) (status : Nat) (marker : Bool) :
    Store × ApiOut :=
  if status = 401 ∧ marker = false then
    match st.refresh with
    | some refreshToken =>
      match srv.refreshAccess refreshToken with
      | some access =>
        let st2 : Store := { st with access := some access }
        let status2 := srv.protectedStatus st2.access
        if isSuccess status2 then (st2, ⟨true, status2, 1, false⟩)
        else (st2, ⟨false, status2, 1, false⟩)
      | none =>
        ({ access := none, refresh := none, storedUser := none },
         ⟨false, 401, 1, true⟩)
    | none => (st, ⟨false, status, 0, false⟩)
  else (st, ⟨false, status, 0, false⟩)

/-- One request through the axios instance: the request interceptor
attaches the cached access token, the server answers, and on rejection
the response-error handler above runs with a fresh `_retry` marker. -/
def apiRequest (srv : Server) (st : Store) : Store × ApiOut :=
  let status := srv.protectedStatus st.access
  if isSuccess status then (st, ⟨true, status, 0, false⟩)
  else onRejected srv st status false

/-- Two requests that were both sent with the current access token and
both came back 401 before any refresh completed.  Their error handlers
run one after the other on the single-threaded event loop, sharing the
localStorage cache; nothing in api.ts shares an in-flight refresh, so
each handler proceeds independently. -/
def twoConcurrent (srv : Server) (st : Store) : Store × ApiOut × ApiOut :=
  let status := srv.protectedStatus st.access
  let r1 := onRejected srv st status false
  let r2 := onRejected srv r1.1 status false
  (r2.1, r1.2, r2.2)

/-- List of outbound HTTP calls an operation performs. -/
inductive HttpCall where
  | refreshEndpoint
  | transactionsEndpoint
  | authEndpoint
deriving DecidableEq, Repr

/-- Client runtime state: the localStorage session cache, the React auth
state (`user` of AuthContext), the transaction list held by the
dashboard component, and the current route. -/
structure ClientState where
  access : Option String
  refresh : Option String
  storedUser : Option String
  user : Option String
  txns : List Txn
  route : String
deriving DecidableEq, Repr

/-- The localStorage slice of the client state. -/
def ClientState.store (cs : ClientState) : Store :=
  ⟨cs.access, cs.refresh, cs.storedUser⟩

/-- `isAuthenticated: !!user` (AuthContext line 290). -/
def isAuthenticated (cs : ClientState) : Bool := cs.user.isSome

/-- `logout` of AuthContext (lines 264-270): removes the three
localStorage keys and sets the React user to null.  Its body performs no
HTTP call, so the returned call list is empty. -/
def logout (cs : ClientState) : ClientState × List HttpCall :=
  ({ cs with access := none, refresh := none, storedUser := none, user := none },
   [])

/-- Outcome of the dashboard `getTransactions`: whether the list was
fetched, how many refresh calls were made, how many times `logout()`
fired (the session-ended signal), and whether any HTTP request left the
client at all. -/
structure FetchOut where
  fetched : Bool
  refreshCalls : Nat
  logoutCalls : Nat
  httpSent : Bool
deriving DecidableEq, Repr

/-- `getTransactions` of the authenticated dashboard (login/page.tsx
lines 182-207): it returns at once when not authenticated; otherwise the
request runs through the axios instance, and a rejection with status 401
is handled by clearing the session (`logout()`) and navigating to
`/login`. -/
def getTransactions (srv : Server) (cs : ClientState) : ClientState × FetchOut :=
  if isAuthenticated cs = false then (cs, ⟨false, 0, 0, false⟩)
  else
    let r := apiRequest srv cs.store
    let cs2 : ClientState :=
      { cs with access := r.1.access, refresh := r.1.refresh,
                storedUser := r.1.storedUser }
    if r.2.ok then (cs2, ⟨true, r.2.refreshCalls, 0, true⟩)
    else if r.2.status = 401 then
      ({ (logout cs2).1 with route := "/login" },
       ⟨false, r.2.refreshCalls, 1, true⟩)
    else (cs2, ⟨false, r.2.refreshCalls, 0, true⟩)

/-- The dashboard guard effect: `if (!authLoading && !isAuthenticated)
router.push('/login')` (login/page.tsx lines 162-166). -/
def dashboardGuard (cs : ClientState) : ClientState :=
  if isAuthenticated cs = false then { cs with route := "/login" } else cs

/-- Concrete backend for the single-flight scenario: the old access
token is expired (401), the refresh endpoint issues `ACCESS2`, and
`ACCESS2` is accepted (200). -/
def srvC1 : Server :=
  { protectedStatus := fun tok => if tok = some ("ACCESS2") then 200 else 401,
    refreshAccess := fun r => if r = "REFRESH1" then some ("ACCESS2") else none }

/-- Session cache holding the expired access token and a valid refresh
token. -/
def storeC1 : Store :=
  { access := some ("ACCESS1"), refresh := some ("REFRESH1"),
    storedUser := some ("alice") }

/-- Backend whose protected endpoints always answer 401 while the
refresh endpoint still issues a token: the retry-bound scenario. -/
def srvAlways401 : Server :=
  { protectedStatus := fun _ => 401,
    refreshAccess := fun _ => some ("ACCESS2") }

/-- A logged-in client state used by the concrete auth scenarios. -/
def csW : ClientState :=
  { access := some ("ACCESS1"), refresh := some ("REFRESH1"),
    storedUser := some ("alice"), user := some ("alice"),
    txns := [], route := "/" }

/-- A logged-in client state with no cached refresh token. -/
def csNoRefresh : ClientState :=
  { access := some ("ACCESS1"), refresh := none,
    storedUser := some ("alice"), user := some ("alice"),
    txns := [], route := "/" }

/-- A legacy record: amount `-50`, no explicit type. -/
def legacyNeg50 : Txn :=
  { id := "L1", text := "legacy spend", amount := some (-50), ty := none }

/-- A legacy record: amount `+50`, no explicit type. -/
def legacyPos50 : Txn :=
  { id := "L2", text := "legacy pay", amount := some 50, ty := none }

/-- A legacy record: amount `-30`, no explicit type. -/
def legacyNeg30 : Txn :=
  { id := "L3", text := "legacy rent", amount := some (-30), ty := none }

/-- A record whose amount does not parse: `Number(t.amount)` is `NaN`. -/
def nanTxn : Txn :=
  { id := "N1", text := "corrupt", amount := none, ty := none }

/-- An explicit income record. -/
def salaryTxn : Txn :=
  { id := "S1", text := "Salary", amount := some 1000, ty := some TType.income }

/-- An explicit expense record. -/
def rentTxn : Txn :=
  { id := "R1", text := "Rent", amount := some 400, ty := some TType.expense }

theorem addOr0_some (c q : ℚ) (t : Txn) (h : t.amount = some q) :
    Dashboard.addOr0 c t = c + q := by
  simp only [Dashboard.addOr0, h, jsAdd, jsOr]
  split
  next h2 => exact h2.symm
  next => rfl

theorem foldl_addOr0_eq_sum (l : List Txn)
    (h : ∀ t ∈ l, (t.amount).isSome = true) :
    ∀ c : ℚ, l.foldl Dashboard.addOr0 c =
      c + (l.map (fun t => (t.amount).getD 0)).sum := by
  induction l with
  | nil => intro c; simp
  | cons t ts ih =>
    intro c
    obtain ⟨q, hq⟩ := Option.isSome_iff_exists.mp (h t (List.mem_cons_self t ts))
    rw [List.foldl_cons, addOr0_some c q t hq,
      ih (fun x hx => h x (List.mem_cons_of_mem t hx)) (c + q)]
    simp [hq]
    ring

theorem qfoldl_shift (l : List ℚ) : ∀ c : ℚ,
    l.foldl (· + ·) c = c + l.foldl (· + ·) 0 := by
  induction l with
  | nil => intro c; simp
  | cons x xs ih =>
    intro c
    rw [List.foldl_cons, List.foldl_cons, ih (c + x), ih (0 + x)]
    ring

theorem qfoldl_split (l : List ℚ) :
    l.foldl (· + ·) 0 =
      (l.filter (fun a => 0 < a)).foldl (· + ·) 0 +
      (l.filter (fun a => a < 0)).foldl (· + ·) 0 := by
  induction l with
  | nil => simp
  | cons x xs ih =>
    rcases lt_trichotomy x 0 with hx | hx | hx
    · have h1 : ¬ (0 : ℚ) < x := by linarith
      rw [List.foldl_cons, qfoldl_shift, ih]
      simp only [List.filter_cons, decide_eq_true_eq, h1, hx, if_true, if_false,
        ite_false, ite_true, List.foldl_cons]
      rw [qfoldl_shift ((xs.filter (fun a => a < 0))) (0 + x)]
      ring
    · subst hx
      have h1 : ¬ (0 : ℚ) < 0 := by linarith
      have h2 : ¬ (0 : ℚ) < 0 := h1
      rw [List.foldl_cons, qfoldl_shift, ih]
      simp only [List.filter_cons, decide_eq_true_eq, lt_irrefl, if_false, ite_false]
      ring
    · have h1 : ¬ x < (0 : ℚ) := by linarith
      rw [List.foldl_cons, qfoldl_shift, ih]
      simp only [List.filter_cons, decide_eq_true_eq, h1, hx, if_true, if_false,
        ite_false, ite_true, List.foldl_cons]
      rw [qfoldl_shift ((xs.filter (fun a => 0 < a))) (0 + x)]
      ring

theorem qOr0_id (x : ℚ) : Legacy.qOr0 x = x := by
  unfold Legacy.qOr0
  split
  next h => exact h.symm
  next => rfl

/-- C4 (amended).  In the authenticated dashboard income is the sum of
amounts over records of effective type income, expense the sum over
effective type expense, and balance is exactly income minus expense; in
the legacy sign-based dashboard expense is the (non-positive) sum of the
negative amounts, and balance equals income PLUS expense. -/
theorem c4_totals (ts : List Txn) (h : ∀ t ∈ ts, (t.amount).isSome = true) :
    Dashboard.income ts =
      ((ts.filter (fun t => Dashboard.effType t = TType.income)).map
        (fun t => (t.amount).getD 0)).sum ∧
    Dashboard.expense ts =
      ((ts.filter (fun t => Dashboard.effType t = TType.expense)).map
        (fun t => (t.amount).getD 0)).sum ∧
    Dashboard.balance ts = Dashboard.income ts - Dashboard.expense ts ∧
    Legacy.balance ts = Legacy.income ts + Legacy.expense ts := by
  refine ⟨?_, ?_, rfl, ?_⟩
  · rw [Dashboard.income,
      foldl_addOr0_eq_sum _ (fun t ht => h t (List.mem_of_mem_filter ht)) 0,
      zero_add]
  · rw [Dashboard.expense,
      foldl_addOr0_eq_sum _ (fun t ht => h t (List.mem_of_mem_filter ht)) 0,
      zero_add]
  · rw [Legacy.balance, Legacy.income, Legacy.expense, qOr0_id, qOr0_id,
      qOr0_id, qfoldl_split]

/-- C4 counterexample.  On the legacy sign-based dashboard a single
record of amount `-30` gives balance `-30`, while income minus expense
is `30`: the claimed identity balance = income - expense fails there. -/
theorem c4_counterexample :
    Legacy.balance [legacyNeg30] = -30 ∧
    Legacy.income [legacyNeg30] - Legacy.expense [legacyNeg30] = 30 := by
  norm_num [Legacy.balance, Legacy.income, Legacy.expense, Legacy.amountArray,
    Legacy.qOr0, jsOr, legacyNeg30, List.filter_cons]

/-- Witness for `c4_totals` at a concrete two-record list. -/
theorem c4_witness :
    Dashboard.income [salaryTxn, rentTxn] =
      (([salaryTxn, rentTxn].filter
        (fun t => Dashboard.effType t = TType.income)).map
        (fun t => (t.amount).getD 0)).sum ∧
    Dashboard.expense [salaryTxn, rentTxn] =
      (([salaryTxn, rentTxn].filter
        (fun t => Dashboard.effType t = TType.expense)).map
        (fun t => (t.amount).getD 0)).sum ∧
    Dashboard.balance [salaryTxn, rentTxn] =
      Dashboard.income [salaryTxn, rentTxn] -
        Dashboard.expense [salaryTxn, rentTxn] ∧
    Legacy.balance [salaryTxn, rentTxn] =
      Legacy.income [salaryTxn, rentTxn] + Legacy.expense [salaryTxn, rentTxn] :=
  c4_totals [salaryTxn, rentTxn] (by decide)

/-- C5 counterexample.  The code computes `|expense|/income`, so at the
negative expense totals the legacy dashboard actually feeds it
(`expense = -150` there means 150 spent) the code yields `100` while the
spec formula, expense/income clamped to `[0,100]`, yields `0`. -/
theorem c5_counterexample :
    ratioOf 100 (-150) = 100 ∧ ratioSpec 100 (-150) = 0 ∧
    ratioOf 100 (-150) ≠ ratioSpec 100 (-150) := by
  norm_num [ratioOf, ratioSpec]

/-- C5 (amended).  The ratio is `0` whenever income is not positive
(including income `0`), equals `|expense|/income` as a percentage capped
above at `100` for positive income, coincides with the spec clamp
formula whenever expense is nonnegative, and takes the two values the
spec lists. -/
theorem c5_ratio_clamp (i e : ℚ) :
    (i ≤ 0 → ratioOf i e = 0) ∧
    (0 < i → ratioOf i e = min (|e| / i * 100) 100) ∧
    (0 < i → 0 ≤ e → ratioOf i e = ratioSpec i e) ∧
    ratioOf 100 150 = 100 ∧ ratioOf 200 50 = 25 := by
  refine ⟨?_, ?_, ?_, by norm_num [ratioOf], by norm_num [ratioOf]⟩
  · intro h
    rw [ratioOf, if_neg (not_lt.mpr h)]
  · intro h
    rw [ratioOf, if_pos h]
  · intro hi he
    rw [ratioOf, ratioSpec, if_pos hi, if_neg (ne_of_gt hi),
      abs_of_nonneg he, max_eq_right (le_min (by positivity) (by norm_num))]

/-- Witness for `c5_ratio_clamp` at income 100, expense 150. -/
theorem c5_witness :
    ratioOf 100 150 = min (|(150 : ℚ)| / 100 * 100) 100 ∧
    ratioOf 100 150 = ratioSpec 100 150 :=
  ⟨(c5_ratio_clamp 100 150).2.1 (by norm_num),
   (c5_ratio_clamp 100 150).2.2.1 (by norm_num) (by norm_num)⟩

/-- C6.  A record without an explicit type is classified by the sign of
its amount (positive means income, anything else expense); the legacy
record of amount `-50` is classified expense and shown with magnitude 50
(its display amount is `50` and the Expenses stat over it shows `50`),
and the record of amount `+50` is classified income. -/
theorem c6_legacy_inference :
    (∀ (t : Txn) (q : ℚ), t.ty = none → t.amount = some q →
      Dashboard.effType t = (if 0 < q then TType.income else TType.expense)) ∧
    Dashboard.effType legacyNeg50 = TType.expense ∧
    Dashboard.displayAmount legacyNeg50 = some 50 ∧
    Dashboard.shownExpense [legacyNeg50] = 50 ∧
    Dashboard.effType legacyPos50 = TType.income ∧
    Dashboard.income [legacyPos50] = 50 := by
  refine ⟨?_, by decide, by decide,
    by norm_num [Dashboard.shownExpense, Dashboard.expense, Dashboard.effType,
      Dashboard.addOr0, jsOr, jsAdd, jsGt, legacyNeg50, List.filter_cons],
    by decide,
    by norm_num [Dashboard.income, Dashboard.effType, Dashboard.addOr0,
      jsOr, jsAdd, jsGt, legacyPos50, List.filter_cons]⟩
  intro t q hty hq
  by_cases h0 : 0 < q <;> simp [Dashboard.effType, hty, hq, jsGt, h0]

/-- Witness for `c6_legacy_inference` on the `-50` legacy record. -/
theorem c6_witness :
    Dashboard.effType legacyNeg50 =
      (if (0 : ℚ) < (-50) then TType.income else TType.expense) :=
  c6_legacy_inference.1 legacyNeg50 (-50) rfl rfl

/-- C8 counterexample.  The legacy dashboard sends the create request
for description Rent and amount `-5` even though `-5` is not greater
than `0`: its pre-validation has no positivity check. -/
theorem c8_counterexample :
    Legacy.addTransactionSends ("Rent") (FormAmount.num (-5)) = true ∧
    ¬ (0 : ℚ) < (-5) := by
  constructor
  · simp [Legacy.addTransactionSends]
  · norm_num

/-- C8 (amended).  The authenticated dashboard sends the create request
exactly when the description is non-empty and the amount is a number
greater than zero; the legacy dashboard checks only that the description
is non-empty and the amount is a number (of any sign). -/
theorem c8_validation (text : String) (q : ℚ) :
    (Dashboard.addTransactionSends text (FormAmount.num q) = true ↔
      (text ≠ "" ∧ 0 < q)) ∧
    Dashboard.addTransactionSends text FormAmount.empty = false ∧
    Dashboard.addTransactionSends text FormAmount.nan = false ∧
    (Legacy.addTransactionSends text (FormAmount.num q) = true ↔ text ≠ "") ∧
    Legacy.addTransactionSends text FormAmount.empty = false ∧
    Legacy.addTransactionSends text FormAmount.nan = false := by
  by_cases ht : text = ""
  · simp [Dashboard.addTransactionSends, Legacy.addTransactionSends,
      FormAmount.toNum, jsLe, ht]
  · by_cases hq0 : q ≤ 0
    · have h1 : ¬ (0 : ℚ) < q := not_lt.mpr hq0
      simp [Dashboard.addTransactionSends, Legacy.addTransactionSends,
        FormAmount.toNum, jsLe, ht, hq0, h1]
    · have h1 : (0 : ℚ) < q := not_le.mp hq0
      simp [Dashboard.addTransactionSends, Legacy.addTransactionSends,
        FormAmount.toNum, jsLe, ht, hq0, h1]

/-- Witness for `c8_validation`: an empty amount field never produces an
HTTP request on the authenticated dashboard. -/
theorem c8_witness :
    Dashboard.addTransactionSends ("Salary") FormAmount.empty = false :=
  (c8_validation ("Salary") 1000).2.1

/-- C9.  A successful delete keeps a subsequence of the original list
(so untouched records keep their relative order and content), a record
is kept exactly when its id differs from the deleted id, every record
carrying the deleted id disappears, and the multiplicity of every other
record is unchanged. -/
theorem c9_delete_filter (success : Bool) (idv : String) (ts : List Txn)
    (h : success = true) :
    (deleteTransaction success idv ts).Sublist ts ∧
    (∀ t : Txn, t ∈ deleteTransaction success idv ts ↔ (t ∈ ts ∧ t.id ≠ idv)) ∧
    (∀ t : Txn, t.id = idv → (deleteTransaction success idv ts).count t = 0) ∧
    (∀ t : Txn, t.id ≠ idv →
      (deleteTransaction success idv ts).count t = ts.count t) := by
  subst h
  have hd : deleteTransaction true idv ts = ts.filter (fun t => t.id ≠ idv) := rfl
  rw [hd]
  refine ⟨List.filter_sublist ts, ?_, ?_, ?_⟩
  · intro t
    simp [List.mem_filter]
  · intro t ht
    rw [List.count_eq_zero]
    simp [List.mem_filter, ht]
  · intro t ht
    exact List.count_filter (by simpa using ht)

/-- Witness for `c9_delete_filter` on a concrete two-record list. -/
theorem c9_witness :
    (deleteTransaction true ("S1") [salaryTxn, rentTxn]).Sublist
      [salaryTxn, rentTxn] ∧
    (rentTxn ∈ deleteTransaction true ("S1") [salaryTxn, rentTxn] ↔
      (rentTxn ∈ [salaryTxn, rentTxn] ∧ rentTxn.id ≠ "S1")) :=
  ⟨(c9_delete_filter true ("S1") [salaryTxn, rentTxn] rfl).1,
   (c9_delete_filter true ("S1") [salaryTxn, rentTxn] rfl).2.1 rentTxn⟩

/-- C10.  In the legacy sign-based totals a record whose amount does not
parse (`Number(t.amount)` is `NaN`) contributes exactly zero: removing
it from any position changes none of balance, income, expense, which by
construction are ordinary rationals, never `NaN`. -/
theorem c10_nan_zero (pre post : List Txn) (t : Txn) (h : t.amount = none) :
    Legacy.balance (pre ++ t :: post) = Legacy.balance (pre ++ post) ∧
    Legacy.income (pre ++ t :: post) = Legacy.income (pre ++ post) ∧
    Legacy.expense (pre ++ t :: post) = Legacy.expense (pre ++ post) := by
  have hz : jsOr t.amount 0 = 0 := by simp [jsOr, h]
  have ha : Legacy.amountArray (pre ++ t :: post) =
      Legacy.amountArray pre ++ 0 :: Legacy.amountArray post := by
    simp [Legacy.amountArray, hz]
  have hab : Legacy.amountArray (pre ++ post) =
      Legacy.amountArray pre ++ Legacy.amountArray post := by
    simp [Legacy.amountArray]
  refine ⟨?_, ?_, ?_⟩
  · rw [Legacy.balance, Legacy.balance, ha, hab]
    simp [List.foldl_append]
  · rw [Legacy.income, Legacy.income, ha, hab]
    simp [List.filter_append, List.filter_cons, lt_irrefl]
  · rw [Legacy.expense, Legacy.expense, ha, hab]
    simp [List.filter_append, List.filter_cons, lt_irrefl]

/-- Witness for `c10_nan_zero`: the corrupt record between Salary and
Rent changes none of the three legacy aggregates. -/
theorem c10_witness :
    Legacy.balance ([salaryTxn] ++ nanTxn :: [rentTxn]) =
      Legacy.balance ([salaryTxn] ++ [rentTxn]) ∧
    Legacy.income ([salaryTxn] ++ nanTxn :: [rentTxn]) =
      Legacy.income ([salaryTxn] ++ [rentTxn]) ∧
    Legacy.expense ([salaryTxn] ++ nanTxn :: [rentTxn]) =
      Legacy.expense ([salaryTxn] ++ [rentTxn]) :=
  c10_nan_zero [salaryTxn] [rentTxn] nanTxn rfl

/-- C1 counterexample.  Two requests that failed with 401 while no
refresh was pending issue TWO calls to the refresh endpoint, not exactly
one: nothing in the interceptor shares an in-flight refresh, so each
error handler refreshes on its own. -/
theorem c1_counterexample :
    (twoConcurrent srvC1 storeC1).2.1.refreshCalls +
      (twoConcurrent srvC1 storeC1).2.2.refreshCalls = 2 ∧
    ¬ ((twoConcurrent srvC1 storeC1).2.1.refreshCalls +
      (twoConcurrent srvC1 storeC1).2.2.refreshCalls = 1) := by
  decide

/-- C1 (amended).  When two requests fail concurrently with 401, the
refresh token is cached, the refresh endpoint keeps answering with the
same new access token, and that token is accepted, then EACH of the two
requests performs its own refresh call (two refresh calls in total) and
each is retried successfully with the new access token. -/
theorem c1_two_refreshes (srv : Server) (st : Store) (r a : String)
    (hr : st.refresh = some r) (ha : srv.refreshAccess r = some a)
    (h401 : srv.protectedStatus st.access = 401)
    (h200 : srv.protectedStatus (some a) = 200) :
    twoConcurrent srv st =
      ({ st with access := some a },
       ⟨true, 200, 1, false⟩, ⟨true, 200, 1, false⟩) := by
  simp [twoConcurrent, onRejected, isSuccess, hr, ha, h401, h200]

/-- Witness for `c1_two_refreshes` on the concrete single-flight
scenario. -/
theorem c1_witness :
    twoConcurrent srvC1 storeC1 =
      ({ storeC1 with access := some ("ACCESS2") },
       ⟨true, 200, 1, false⟩, ⟨true, 200, 1, false⟩) :=
  c1_two_refreshes srvC1 storeC1 ("REFRESH1") ("ACCESS2") rfl (by decide)
    (by decide) (by decide)

/-- C2.  Against a server whose protected endpoints always answer 401
while the refresh endpoint still issues a token, a dashboard fetch
performs exactly one refresh call (the `_retry` marker blocks a second
cycle when the retried request comes back 401), clears the whole cached
session, fires the session-ended signal (`logout()`) exactly once, and
lands on the login route. -/
theorem c2_retry_bound (srv : Server) (cs : ClientState) (r a : String)
    (hu : isAuthenticated cs = true) (hr : cs.refresh = some r)
    (ha : srv.refreshAccess r = some a)
    (h401 : ∀ tok, srv.protectedStatus tok = 401) :
    getTransactions srv cs =
      (⟨none, none, none, none, cs.txns, "/login"⟩, ⟨false, 1, 1, true⟩) := by
  simp [getTransactions, apiRequest, onRejected, isSuccess, ClientState.store,
    logout, hu, hr, ha, h401]

/-- Witness for `c2_retry_bound` on the concrete always-401 backend. -/
theorem c2_witness :
    getTransactions srvAlways401 csW =
      (⟨none, none, none, none, [], "/login"⟩, ⟨false, 1, 1, true⟩) :=
  c2_retry_bound srvAlways401 csW ("REFRESH1") ("ACCESS2") rfl rfl rfl
    (fun _ => rfl)

/-- C3.  When a request fails with 401 and no refresh token is cached,
the interceptor performs no refresh call and propagates the rejection;
the 401 handler at the call site then ends the session: the cached
session state is cleared and the client navigates to the login page. -/
theorem c3_no_refresh_token (srv : Server) (cs : ClientState)
    (hu : isAuthenticated cs = true) (hr : cs.refresh = none)
    (h401 : srv.protectedStatus cs.access = 401) :
    getTransactions srv cs =
      (⟨none, none, none, none, cs.txns, "/login"⟩, ⟨false, 0, 1, true⟩) := by
  simp [getTransactions, apiRequest, onRejected, isSuccess, ClientState.store,
    logout, hu, hr, h401]

/-- Witness for `c3_no_refresh_token` on the concrete state with no
cached refresh token. -/
theorem c3_witness :
    getTransactions srvAlways401 csNoRefresh =
      (⟨none, none, none, none, [], "/login"⟩, ⟨false, 0, 1, true⟩) :=
  c3_no_refresh_token srvAlways401 csNoRefresh rfl rfl rfl

/-- C7.  `logout()` clears all four pieces of cached session state,
performs no HTTP call, leaves every other piece of client state (the
transaction list, the current route) untouched, and afterwards a
protected fetch sends nothing to the server while the dashboard guard
redirects to the login page. -/
theorem c7_logout_frame (srv : Server) (cs : ClientState) :
    (logout cs).1.access = none ∧ (logout cs).1.refresh = none ∧
    (logout cs).1.storedUser = none ∧ (logout cs).1.user = none ∧
    (logout cs).2 = [] ∧
    (logout cs).1.txns = cs.txns ∧ (logout cs).1.route = cs.route ∧
    getTransactions srv (logout cs).1 = ((logout cs).1, ⟨false, 0, 0, false⟩) ∧
    (dashboardGuard (logout cs).1).route = "/login" := by
  simp [logout, getTransactions, isAuthenticated, dashboardGuard]
